import Mathlib

/-!
# Verification of the llmx resilience pipeline

Shallow embedding of the `llmx` middleware core (circuit breaker, retry,
rate limiting, adaptive timeout, response cache, middleware composition and
the streaming channel) together with proofs of the specification's claims.

Conventions of the embedding:
* Go `time.Time` / `time.Duration` values are modelled as `Int` nanoseconds
  (`time.Duration` is an `int64` of nanoseconds; where an arithmetic claim
  could overflow we wrap explicitly at 64 bits).
* Mutable receivers become explicit state passing: a Go method
  `func (x *T) M(a) r` becomes `T.M : T → A → R × T` (or just `T` when it
  returns nothing).
* Go `error` results become `Option`/`Except` values over a `GoError` type
  that mirrors the concrete error structs of `errors.go`.
* Handlers close over effects (invocation counters in the tests); a handler
  call site in a middleware is modelled by also returning a `Bool` recording
  whether the wrapped handler was invoked during that call.
-/

namespace Llmx

/-! ## Data model (`types.go`) -/

/-- `ContentPart` interface with its implementations `TextPart`, `ImagePart`,
`ToolCall`, `ToolResultPart` (json.RawMessage arguments modelled as `String`). -/
inductive ContentPart where
  | textPart (Text : String)
  | imagePart (URL Base64 Detail : String)
  | toolCallPart (ID Name Arguments : String)
  | toolResultPart (ToolCallID Result : String) (IsError : Bool)
deriving DecidableEq, Repr

/-- `ToolCall` struct. -/
structure ToolCall where
  ID : String
  Name : String
  Arguments : String
deriving DecidableEq, Repr

/-- `Message` struct (`MessageRole` is a string type). -/
structure Message where
  Role : String
  Content : List ContentPart
  ToolCalls : List ToolCall
deriving DecidableEq, Repr

/-- `Tool` struct. The `Execute` callback and the JSON `Schema` are opaque to
the pipeline (only `len(req.Tools)` and structural equality matter to it);
they are modelled by the declaring data. -/
structure Tool where
  Name : String
  Description : String
deriving DecidableEq, Repr

/-- `ChatRequest` struct. Optional sampling parameters (`*float64` fields) are
opaque payload for every middleware; the floating-point ones are not part of
any claim and are omitted from the structural model. -/
structure ChatRequest where
  Model : String
  Messages : List Message
  MaxTokens : Option Int
  Stop : List String
  Tools : List Tool
deriving DecidableEq, Repr

/-- `Usage` struct. -/
structure Usage where
  PromptTokens : Int
  CompletionTokens : Int
  TotalTokens : Int
deriving DecidableEq, Repr

/-- `ChatResponse` struct (`CreatedAt` as nanoseconds, `Raw` omitted as
opaque debugging payload). -/
structure ChatResponse where
  ID : String
  Model : String
  Content : String
  ToolCalls : List ToolCall
  Usage : Usage
  FinishReason : String
  CreatedAt : Int
deriving DecidableEq, Repr

/-! ## Errors (`errors.go`)

A Go `error` value reaching the pipeline is either a plain error
(`errors.New`) or one of the `llmx` error structs, each embedding a
`BaseError` with a fixed code/status/retryable assignment set by its
constructor.  The constructors that the middleware under verification
uses are `NewRateLimitError` and `NewInternalError`. -/

/-- The Go `error` values that flow through the pipeline. -/
inductive GoError where
  /-- a non-`llmx` error (e.g. `errors.New`): not an `llmx.Error`. -/
  | generic (msg : String)
  /-- `RateLimitError`: code `rate_limit`, status 429, retryable,
  with a suggested `RetryAfter` duration (ns). -/
  | rateLimit (message : String) (retryAfter : Int)
  /-- `InternalError`: code `internal`, status 500, retryable, with cause. -/
  | internal (message : String) (cause : Option GoError)
  /-- `InvalidRequestError`: code `invalid_request`, status 400, not retryable. -/
  | invalidRequest (message : String)
  /-- `AuthenticationError`: code `authentication`, status 401, not retryable. -/
  | authentication (message : String)
deriving Repr

/-- `NewRateLimitError` constructor. -/
def NewRateLimitError (message : String) (retryAfter : Int) : GoError :=
  GoError.rateLimit message retryAfter

/-- `NewInternalError` constructor. -/
def NewInternalError (message : String) (cause : Option GoError) : GoError :=
  GoError.internal message cause

/-- `llmxErr.Retryable()` for each concrete error struct (`IsRetry` field as
set by the corresponding constructor); a `generic` error is not an
`llmx.Error` at all (the type assertion fails), handled in `isRetryable`. -/
def GoError.Retryable : GoError → Bool
  | .generic _ => false
  | .rateLimit _ _ => true
  | .internal _ _ => true
  | .invalidRequest _ => false
  | .authentication _ => false

/-- Whether the value is an `llmx.Error` (the `err.(llmx.Error)` type
assertion succeeds). -/
def GoError.isLlmxError : GoError → Bool
  | .generic _ => false
  | _ => true

/-- `llmxErr.Code()`. -/
def GoError.Code : GoError → String
  | .generic _ => ""
  | .rateLimit _ _ => "rate_limit"
  | .internal _ _ => "internal"
  | .invalidRequest _ => "invalid_request"
  | .authentication _ => "authentication"

/-- `RateLimitError.RetryAfter` field (0 on other errors). -/
def GoError.RetryAfterOf : GoError → Int
  | .rateLimit _ d => d
  | _ => 0

/-- `isRetryable` from `retry.go`: nil is not retryable; an `llmx.Error`
defers to `Retryable()`; unknown (non-llmx) errors are not retried. -/
def isRetryable : Option GoError → Bool
  | none => false
  | some e => if e.isLlmxError then e.Retryable else false

/-! ## Circuit breaker (`circuitbreaker.go`) -/

/-- `CircuitState`. -/
inductive CircuitState where
  | Closed
  | Open
  | HalfOpen
deriving DecidableEq, Repr

/-- `CircuitBreaker` struct; times are `Int` nanoseconds.  The Go zero value
of `lastFailureTime` is modelled as 0. -/
structure CircuitBreaker where
  maxFailures : Nat
  timeout : Int
  resetSuccesses : Nat
  halfOpenRequests : Nat
  state : CircuitState
  failures : Nat
  successes : Nat
  lastFailureTime : Int
  halfOpenAttempts : Nat
deriving DecidableEq, Repr

/-- `NewCircuitBreaker`. -/
def NewCircuitBreaker (maxFailures : Nat) (timeout : Int) : CircuitBreaker :=
  { maxFailures := maxFailures
    timeout := timeout
    resetSuccesses := 2
    halfOpenRequests := 3
    state := CircuitState.Closed
    failures := 0
    successes := 0
    lastFailureTime := 0
    halfOpenAttempts := 0 }

/-- `CircuitBreaker.Allow` at current time `now`: returns the error message
(if the call is rejected) and the updated breaker.  `time.Since(t) > timeout`
becomes `now - t > timeout`. -/
def CircuitBreaker.Allow (cb : CircuitBreaker) (now : Int) :
    Option String × CircuitBreaker :=
  match cb.state with
  | CircuitState.Closed => (none, cb)
  | CircuitState.Open =>
      if now - cb.lastFailureTime > cb.timeout then
        (none, { cb with state := CircuitState.HalfOpen, halfOpenAttempts := 0 })
      else
        (some "circuit breaker is open", cb)
  | CircuitState.HalfOpen =>
      if cb.halfOpenAttempts ≥ cb.halfOpenRequests then
        (some "circuit breaker is half-open, max attempts reached", cb)
      else
        (none, { cb with halfOpenAttempts := cb.halfOpenAttempts + 1 })

/-- `CircuitBreaker.RecordSuccess`. -/
def CircuitBreaker.RecordSuccess (cb : CircuitBreaker) : CircuitBreaker :=
  match cb.state with
  | CircuitState.Closed => { cb with failures := 0 }
  | CircuitState.HalfOpen =>
      let s := cb.successes + 1
      if s ≥ cb.resetSuccesses then
        { cb with state := CircuitState.Closed, failures := 0, successes := 0,
                  halfOpenAttempts := 0 }
      else
        { cb with successes := s }
  | CircuitState.Open => cb

/-- `CircuitBreaker.RecordFailure` at time `now`: `lastFailureTime = time.Now()`
is set unconditionally, before the state switch. -/
def CircuitBreaker.RecordFailure (cb : CircuitBreaker) (now : Int) : CircuitBreaker :=
  let cb := { cb with lastFailureTime := now }
  match cb.state with
  | CircuitState.Closed =>
      let f := cb.failures + 1
      if f ≥ cb.maxFailures then
        { cb with failures := f, state := CircuitState.Open }
      else
        { cb with failures := f }
  | CircuitState.HalfOpen =>
      { cb with state := CircuitState.Open, successes := 0, halfOpenAttempts := 0 }
  | CircuitState.Open => cb

/-- One call through `CircuitBreakerMiddleware(cb)`: check `Allow`, on
rejection fail with an internal error without invoking `next`; otherwise
invoke `next` and record the outcome.  Returns the call result, the updated
breaker, and whether `next` was invoked. -/
def circuitBreakerCall (next : ChatRequest → Except GoError ChatResponse)
    (cb : CircuitBreaker) (now : Int) (req : ChatRequest) :
    Except GoError ChatResponse × CircuitBreaker × Bool :=
  match cb.Allow now with
  | (some msg, cb') =>
      (Except.error (NewInternalError ("circuit breaker: " ++ msg) none), cb', false)
  | (none, cb') =>
      match next req with
      | Except.error e => (Except.error e, cb'.RecordFailure now, true)
      | Except.ok resp => (Except.ok resp, cb'.RecordSuccess, true)

/-! ## Retry (`retry.go`)

The Go loop `for attempt := 0; attempt <= maxRetries; attempt++` closes over
a handler that may behave differently on each invocation (the tests count
invocations in a closure); the handler is therefore modelled as a function
from the invocation index.  The inter-attempt sleep is a
`select { <-time.After(delay); <-ctx.Done() }`; a context is modelled by the
single observable bit the loop reads, whether `ctx.Done()` is closed (a
context that is cancelled mid-call is cancelled for every later read). -/

/-- The observable outcome of one call through `Retry`: the returned value,
how many times the wrapped handler was invoked, and the backoff delays that
were slept (in order). -/
structure RetryTrace where
  result : Except GoError ChatResponse
  invocations : Nat
  sleeps : List Int
deriving Repr

/-- The retry loop from iteration `attempt` with `remaining = maxRetries - attempt`
further iterations available after this one. -/
def retryLoop (backoff : Nat → Int) (next : Nat → Except GoError ChatResponse)
    (ctxDone : Bool) : (attempt remaining : Nat) → (count : Nat) → (slept : List Int) →
    RetryTrace
  | attempt, remaining, count, slept =>
      match next attempt with
      | Except.ok resp => ⟨Except.ok resp, count + 1, slept⟩
      | Except.error err =>
          if isRetryable (some err) = false then
            ⟨Except.error err, count + 1, slept⟩
          else
            match remaining with
            | 0 => ⟨Except.error err, count + 1, slept⟩
            | remaining' + 1 =>
                let delay := backoff attempt
                if ctxDone then
                  ⟨Except.error (GoError.generic "context canceled"), count + 1, slept⟩
                else
                  retryLoop backoff next ctxDone (attempt + 1) remaining' (count + 1)
                    (slept ++ [delay])

/-- One call through `Retry(maxRetries, backoff)`. -/
def Retry (maxRetries : Nat) (backoff : Nat → Int)
    (next : Nat → Except GoError ChatResponse) (ctxDone : Bool) : RetryTrace :=
  retryLoop backoff next ctxDone 0 maxRetries 0 []

/-- `ExponentialBackoff.Next`: `Base * 2^attempt` capped at `Max`
(the shift stays in range for every attempt index the claims touch). -/
def ExponentialBackoffNext (base max : Int) (attempt : Nat) : Int :=
  let duration := base * (2 ^ attempt : Int)
  if duration > max then max else duration

/-! ## Adaptive timeout (`timeout.go`)

`time.Duration` arithmetic is 64-bit two's-complement; the additions and the
`time.Duration(len(...)) * d` products wrap at 2^63, made explicit here. -/

/-- Wrap an integer into the `int64` range (two's-complement overflow). -/
def i64wrap (x : Int) : Int := (x + 2 ^ 63) % 2 ^ 64 - 2 ^ 63

/-- `AdaptiveTimeout` struct (durations in ns). -/
structure AdaptiveTimeout where
  baseTimeout : Int
  perMessage : Int
  perTool : Int
  maxTimeout : Int
deriving DecidableEq, Repr

/-- `NewAdaptiveTimeout` defaults: 30s base, 2s/message, 5s/tool, 5min cap. -/
def NewAdaptiveTimeout : AdaptiveTimeout :=
  { baseTimeout := 30 * 1000000000
    perMessage := 2 * 1000000000
    perTool := 5 * 1000000000
    maxTimeout := 5 * 60 * 1000000000 }

/-- `AdaptiveTimeout.CalculateTimeout`: `base`, plus `len(Messages)·perMessage`,
plus `len(Tools)·perTool` (int64 arithmetic), capped at `maxTimeout`. -/
def AdaptiveTimeout.CalculateTimeout (at' : AdaptiveTimeout) (req : ChatRequest) : Int :=
  let timeout := at'.baseTimeout
  let timeout := i64wrap (timeout + i64wrap ((req.Messages.length : Int) * at'.perMessage))
  let timeout := i64wrap (timeout + i64wrap ((req.Tools.length : Int) * at'.perTool))
  if timeout > at'.maxTimeout then at'.maxTimeout else timeout

/-! ## Sliding-window rate limiter (`ratelimit.go`) -/

/-- `SlidingWindowLimiter` struct (timestamps in ns). -/
structure SlidingWindowLimiter where
  requests : List Int
  maxRequests : Nat
  windowPeriod : Int
deriving DecidableEq, Repr

/-- `NewSlidingWindowLimiter`. -/
def NewSlidingWindowLimiter (maxRequests : Nat) (window : Int) : SlidingWindowLimiter :=
  { requests := [], maxRequests := maxRequests, windowPeriod := window }

/-- `SlidingWindowLimiter.Allow` at time `now`: keep the timestamps strictly
after `cutoff = now - windowPeriod` (`t.After(cutoff)`), admit iff fewer than
`maxRequests` remain, appending `now` on admission. -/
def SlidingWindowLimiter.Allow (s : SlidingWindowLimiter) (now : Int) :
    Bool × SlidingWindowLimiter :=
  let cutoff := now - s.windowPeriod
  let validRequests := s.requests.filter (fun t => t > cutoff)
  if validRequests.length ≥ s.maxRequests then
    (false, { s with requests := validRequests })
  else
    (true, { s with requests := validRequests ++ [now] })

/-- `claimAllowSpec` — the admission decision exactly as the specification
words it ("discard entries older than `now - window`, then admit iff the
retained count < N"): an entry is *older than* `now - window` when its
timestamp is strictly below the cutoff, so the retained entries are those
with `t ≥ now - window`.  Kept separate from `SlidingWindowLimiter.Allow`
(translated from the source) for the refinement comparison. -/
def claimAllowSpec (s : SlidingWindowLimiter) (now : Int) : Bool :=
  let retained := s.requests.filter (fun t => t ≥ now - s.windowPeriod)
  decide (retained.length < s.maxRequests)

/-! ## Response cache (`cache.go`) -/

/-- `cacheItem`: stored value plus absolute expiration instant. -/
structure CacheItem where
  value : ChatResponse
  expiration : Int
deriving DecidableEq, Repr

/-- `MemoryCache`: the `map[string]cacheItem`, as an association list in which
the first binding for a key is the current one (a `Set` prepends, shadowing
older bindings, which matches Go map overwrite observationally). -/
structure MemoryCache where
  items : List (String × CacheItem)
deriving DecidableEq, Repr

/-- `NewMemoryCache` (the periodic cleanup goroutine only removes entries
`Get` already treats as absent, so it is not part of the functional model). -/
def NewMemoryCache : MemoryCache := { items := [] }

/-- `MemoryCache.Get` at time `now`: a missing key or an entry with
`now.After(expiration)` is a miss. -/
def MemoryCache.Get (c : MemoryCache) (key : String) (now : Int) : Option ChatResponse :=
  match c.items.lookup key with
  | none => none
  | some item => if now > item.expiration then none else some item.value

/-- `MemoryCache.Set` at time `now`: store with expiration `now + ttl`. -/
def MemoryCache.Set (c : MemoryCache) (key : String) (value : ChatResponse)
    (ttl now : Int) : MemoryCache :=
  { items := (key, { value := value, expiration := now + ttl }) :: c.items }

/-- Deterministic serialization of a content part (stands in for its JSON). -/
def serializeContentPart : ContentPart → String
  | ContentPart.textPart t => "text[" ++ t ++ "]"
  | ContentPart.imagePart u b d => "image[" ++ u ++ "," ++ b ++ "," ++ d ++ "]"
  | ContentPart.toolCallPart i n a => "tool_call[" ++ i ++ "," ++ n ++ "," ++ a ++ "]"
  | ContentPart.toolResultPart i r e =>
      "tool_result[" ++ i ++ "," ++ r ++ "," ++ (if e then "1" else "0") ++ "]"

/-- Deterministic serialization of a message. -/
def serializeMessage (m : Message) : String :=
  m.Role ++ "(" ++ String.intercalate ";" (m.Content.map serializeContentPart) ++ ")(" ++
    String.intercalate ";" (m.ToolCalls.map (fun c => c.ID ++ ":" ++ c.Name ++ ":" ++ c.Arguments)) ++ ")"

/-- `generateCacheKey`. Modelled from the spec: `json.Marshal` and
`crypto/sha256` are external library code; the spec requires only "a
fingerprint by serializing the Request deterministically and hashing it",
so the key is modelled as a deterministic serialization of the request
(structurally identical requests produce the same key, which is the only
property of the fingerprint any claim relies on). -/
def generateCacheKey (req : ChatRequest) : String :=
  req.Model ++ "|" ++
    String.intercalate ";" (req.Messages.map serializeMessage) ++ "|" ++
    (match req.MaxTokens with
     | none => "null"
     | some n => toString n) ++ "|" ++
    String.intercalate "," req.Stop ++ "|" ++
    String.intercalate ";" (req.Tools.map (fun t => t.Name ++ ":" ++ t.Description))

/-- One call through `CacheMiddleware(cache, ttl)` at time `now`: compute the
key, return a fresh (unexpired) hit without invoking `next`; on a miss invoke
`next`, pass an error through without caching, and cache a success.  Returns
the result, the updated cache, and whether `next` was invoked. -/
def cacheMiddlewareCall (next : ChatRequest → Except GoError ChatResponse)
    (cache : MemoryCache) (ttl now : Int) (req : ChatRequest) :
    Except GoError ChatResponse × MemoryCache × Bool :=
  let key := generateCacheKey req
  match cache.Get key now with
  | some resp => (Except.ok resp, cache, false)
  | none =>
      match next req with
      | Except.error e => (Except.error e, cache, true)
      | Except.ok resp => (Except.ok resp, cache.Set key resp ttl now, true)

/-! ## Middleware composition (`middleware.go`) -/

/-- A Go `context.Context` as the middleware layer observes it. -/
structure GoContext where
  cancelled : Bool
deriving DecidableEq, Repr

/-- `Handler`: one logical chat call. -/
def Handler : Type :=
  GoContext → ChatRequest → Except GoError ChatResponse

/-- `Middleware`: wraps a `Handler` into another `Handler`. -/
def Middleware : Type := Handler → Handler

/-- `Apply(handler, middlewares...)`: the loop
`for i := len(middlewares)-1; i >= 0; i-- { handler = middlewares[i](handler) }`,
i.e. a left fold over the reversed list. -/
def Apply (handler : Handler) (middlewares : List Middleware) : Handler :=
  middlewares.reverse.foldl (fun h m => m h) handler

/-- `Chain(middlewares...)`: returns the middleware that runs the same
downward loop starting from its argument. -/
def Chain (middlewares : List Middleware) : Middleware :=
  fun next => middlewares.reverse.foldl (fun h m => m h) next

/-! ## Rate-limit middleware (`ratelimit.go`)

The `RateLimiter` interface (`Allow() bool`, `Wait(ctx) error`) is modelled
by its two methods as explicit state transformers over an arbitrary limiter
state type. -/

/-- One call through `RateLimit(limiter, wait)`: in blocking mode `Wait`, and
on its failure a rate-limit error with no retry-after; in non-blocking mode
`Allow`, and on refusal a rate-limit error with a suggested retry-after of
1 second (`1*time.Second` = 10^9 ns), without invoking `next`.  Returns the
result, the limiter state, and whether `next` was invoked. -/
def rateLimitCall {σ : Type} (allowFn : σ → Bool × σ)
    (waitFn : σ → Option String × σ) (wait : Bool)
    (next : ChatRequest → Except GoError ChatResponse) (st : σ) (req : ChatRequest) :
    Except GoError ChatResponse × σ × Bool :=
  if wait then
    match waitFn st with
    | (some errMsg, st') =>
        (Except.error (NewRateLimitError ("rate limit wait failed: " ++ errMsg) 0),
         st', false)
    | (none, st') => (next req, st', true)
  else
    match allowFn st with
    | (false, st') =>
        (Except.error (NewRateLimitError "rate limit exceeded" 1000000000), st', false)
    | (true, st') => (next req, st', true)

/-! ## Chat stream (`stream.go`, `core/stream.go`)

`ChatStream` owns three channels: `events` (buffered, capacity 100),
`errors` (buffered, capacity 10) and the unbuffered signal channel `done`,
plus a `sync.Once` guard and the accumulated response.  Channel state is
modelled explicitly: a closed flag and the buffered contents.  `SendEvent`
and `SendError` are a Go `select` over three communications; when several
are ready, Go chooses one of the ready cases by uniform pseudo-random
selection, so the model takes the chosen case as an explicit parameter and
exposes which cases are ready (`sendEventReady` / `sendErrorReady`).  A
receive from a closed channel is always ready; a send on a closed channel is
also ready, and proceeding with it raises a run-time panic. -/

/-- `EventType` is a string type in `core/stream.go`. -/
def EventTypeTextDelta : String := "text-delta"

/-- The `interface{}` payload of a `StreamEvent` as the stream observes it:
`SendEvent` type-asserts it to `string` for text deltas. -/
inductive EventData where
  | str (s : String)
  | er (e : GoError)
  | payload (tag : String)
deriving Repr

/-- `StreamEvent` struct. -/
structure StreamEvent where
  Type' : String
  Data : EventData
deriving Repr

/-- `ChatStream` state. -/
structure ChatStream where
  ctxDone : Bool
  onceDone : Bool
  doneClosed : Bool
  eventsClosed : Bool
  errorsClosed : Bool
  eventsBuf : List StreamEvent
  errorsBuf : List GoError
  accumulatedContent : String
deriving Repr

/-- `NewChatStream` for a context whose `Done` state is `ctxDone`. -/
def NewChatStream (ctxDone : Bool) : ChatStream :=
  { ctxDone := ctxDone
    onceDone := false
    doneClosed := false
    eventsClosed := false
    errorsClosed := false
    eventsBuf := []
    errorsBuf := []
    accumulatedContent := "" }

/-- `ChatStream.Close`: under `once.Do`, close `done`, `events`, `errors`. -/
def ChatStream.Close (s : ChatStream) : ChatStream :=
  if s.onceDone then s
  else
    { s with onceDone := true, doneClosed := true, eventsClosed := true,
             errorsClosed := true }

/-- The three cases of the `select` in `SendEvent`/`SendError`. -/
inductive SendCase where
  /-- `case <-s.done:` -/
  | recvDone
  /-- `case s.events <- event:` (resp. `s.errors <- err`) -/
  | send
  /-- `case <-s.ctx.Done():` -/
  | recvCtx
deriving DecidableEq, Repr

/-- Whether a given `select` case of `SendEvent` is ready: receiving from
`done` is ready once it is closed; the send is ready when the buffer has
room or the channel is closed (a send on a closed channel proceeds — by
panicking); the context case is ready when the context is done. -/
def ChatStream.sendEventReady (s : ChatStream) (c : SendCase) : Bool :=
  match c with
  | SendCase.recvDone => s.doneClosed
  | SendCase.send => s.eventsClosed || decide (s.eventsBuf.length < 100)
  | SendCase.recvCtx => s.ctxDone

/-- Whether a given `select` case of `SendError` is ready. -/
def ChatStream.sendErrorReady (s : ChatStream) (c : SendCase) : Bool :=
  match c with
  | SendCase.recvDone => s.doneClosed
  | SendCase.send => s.errorsClosed || decide (s.errorsBuf.length < 10)
  | SendCase.recvCtx => s.ctxDone

/-- Outcome of executing a `select` case. -/
inductive SendOutcome where
  | returned
  | panicked
deriving DecidableEq, Repr

/-- `ChatStream.SendEvent`, given the `select` case chosen among the ready
ones: the `done` and `ctx.Done()` cases return without sending; the send
case panics if `events` is closed, otherwise enqueues the event and
accumulates a text delta. -/
def ChatStream.SendEvent (s : ChatStream) (event : StreamEvent) (choice : SendCase) :
    SendOutcome × ChatStream :=
  match choice with
  | SendCase.recvDone => (SendOutcome.returned, s)
  | SendCase.recvCtx => (SendOutcome.returned, s)
  | SendCase.send =>
      if s.eventsClosed then
        (SendOutcome.panicked, s)
      else
        let s' := { s with eventsBuf := s.eventsBuf ++ [event] }
        if event.Type' = EventTypeTextDelta then
          match event.Data with
          | EventData.str text =>
              (SendOutcome.returned,
               { s' with accumulatedContent := s'.accumulatedContent ++ text })
          | _ => (SendOutcome.returned, s')
        else
          (SendOutcome.returned, s')

/-- `ChatStream.SendError`, given the chosen `select` case. -/
def ChatStream.SendError (s : ChatStream) (err : GoError) (choice : SendCase) :
    SendOutcome × ChatStream :=
  match choice with
  | SendCase.recvDone => (SendOutcome.returned, s)
  | SendCase.recvCtx => (SendOutcome.returned, s)
  | SendCase.send =>
      if s.errorsClosed then
        (SendOutcome.panicked, s)
      else
        (SendOutcome.returned, { s with errorsBuf := s.errorsBuf ++ [err] })

/-! ## Concrete sample values for the witnesses -/

/-- A concrete request: one user message and two tools. -/
def sampleReq : ChatRequest :=
  { Model := "test"
    Messages := [{ Role := "user"
                   Content := [ContentPart.textPart "test"]
                   ToolCalls := [] }]
    MaxTokens := none
    Stop := []
    Tools := [{ Name := "t1", Description := "first" },
              { Name := "t2", Description := "second" }] }

/-- A concrete successful response. -/
def sampleResp : ChatResponse :=
  { ID := "id-1"
    Model := "test"
    Content := "success"
    ToolCalls := []
    Usage := { PromptTokens := 1, CompletionTokens := 2, TotalTokens := 3 }
    FinishReason := "stop"
    CreatedAt := 0 }

/-- A concrete stream event. -/
def sampleEvent : StreamEvent :=
  { Type' := EventTypeTextDelta, Data := EventData.str "hello" }

/-- A concrete breaker in the HalfOpen state mid-probe. -/
def halfOpenSample : CircuitBreaker :=
  { maxFailures := 2, timeout := 100, resetSuccesses := 2, halfOpenRequests := 3,
    state := CircuitState.HalfOpen, failures := 2, successes := 1,
    lastFailureTime := 0, halfOpenAttempts := 1 }

/-- A handler that always fails with a plain (non-llmx, non-retryable) error. -/
def genericErrNext : Nat → Except GoError ChatResponse :=
  fun _ => Except.error (GoError.generic "non-retryable error")

/-- A handler that fails with a retryable rate-limit error on its first two
invocations and succeeds on the third. -/
def retrySeqNext : Nat → Except GoError ChatResponse
  | 0 => Except.error (NewRateLimitError "rate limited" 0)
  | 1 => Except.error (NewRateLimitError "rate limited" 0)
  | _ => Except.ok sampleResp

/-- A cache pre-seeded at time 0 with the sample request's key (ttl 1000). -/
def cacheSeeded : MemoryCache :=
  NewMemoryCache.Set (generateCacheKey sampleReq) sampleResp 1000 0

/-- A handler that always fails with a plain error. -/
def errNextReq : ChatRequest → Except GoError ChatResponse :=
  fun _ => Except.error (GoError.generic "handler error")

/-! ## Claims -/

/-- C1: with failure threshold 2 starting Closed, two recorded failures put
the breaker in Open with `lastFailureTime` the second failure's time; while
not more than `openTimeout` past that time every `Allow` rejects and the
middleware fails without invoking the wrapped handler; once strictly more
than `openTimeout` has elapsed, the next `Allow` transitions to HalfOpen,
resets the half-open attempt counter, and the call is admitted (the handler
is invoked). -/
theorem circuitBreaker_threshold_two_cycle
    (T t1 t2 now1 now2 : Int)
    (next : ChatRequest → Except GoError ChatResponse) (req : ChatRequest)
    (h1 : now1 - t2 ≤ T) (h2 : now2 - t2 > T) :
    let cb2 := ((NewCircuitBreaker 2 T).RecordFailure t1).RecordFailure t2
    cb2.state = CircuitState.Open ∧
    cb2.lastFailureTime = t2 ∧
    ((cb2.Allow now1).1 = some "circuit breaker is open" ∧ (cb2.Allow now1).2 = cb2) ∧
    circuitBreakerCall next cb2 now1 req =
      (Except.error (NewInternalError "circuit breaker: circuit breaker is open" none),
       cb2, false) ∧
    ((cb2.Allow now2).1 = none ∧
     (cb2.Allow now2).2.state = CircuitState.HalfOpen ∧
     (cb2.Allow now2).2.halfOpenAttempts = 0) ∧
    (circuitBreakerCall next cb2 now2 req).2.2 = true := by
  intro cb2
  have hcb2 : cb2 = { maxFailures := 2, timeout := T, resetSuccesses := 2,
                      halfOpenRequests := 3, state := CircuitState.Open,
                      failures := 2, successes := 0, lastFailureTime := t2,
                      halfOpenAttempts := 0 } := by
    simp [cb2, NewCircuitBreaker, CircuitBreaker.RecordFailure]
  have hallow1 : cb2.Allow now1 = (some "circuit breaker is open", cb2) := by
    rw [hcb2]
    simp [CircuitBreaker.Allow, not_lt.mpr h1]
  have hallow2 : cb2.Allow now2 =
      (none, { cb2 with state := CircuitState.HalfOpen, halfOpenAttempts := 0 }) := by
    rw [hcb2]
    simp [CircuitBreaker.Allow, h2]
  refine ⟨by rw [hcb2], by rw [hcb2], ⟨by rw [hallow1], by rw [hallow1]⟩, ?_, ?_, ?_⟩
  · unfold circuitBreakerCall
    rw [hallow1]
    rfl
  · rw [hallow2]
    exact ⟨rfl, rfl, rfl⟩
  · unfold circuitBreakerCall
    rw [hallow2]
    cases next req <;> rfl

/-- C1 witness: threshold 2, `openTimeout` 100, failures at times 0 and 10,
a rejected check at time 110 and an admitted one at time 111. -/
theorem circuitBreaker_threshold_two_cycle_witness :
    let cb2 := ((NewCircuitBreaker 2 100).RecordFailure 0).RecordFailure 10
    cb2.state = CircuitState.Open ∧
    cb2.lastFailureTime = 10 ∧
    ((cb2.Allow 110).1 = some "circuit breaker is open" ∧ (cb2.Allow 110).2 = cb2) ∧
    circuitBreakerCall (fun _ => Except.ok sampleResp) cb2 110 sampleReq =
      (Except.error (NewInternalError "circuit breaker: circuit breaker is open" none),
       cb2, false) ∧
    ((cb2.Allow 111).1 = none ∧
     (cb2.Allow 111).2.state = CircuitState.HalfOpen ∧
     (cb2.Allow 111).2.halfOpenAttempts = 0) ∧
    (circuitBreakerCall (fun _ => Except.ok sampleResp) cb2 111 sampleReq).2.2 = true :=
  circuitBreaker_threshold_two_cycle 100 0 10 110 111
    (fun _ => Except.ok sampleResp) sampleReq (by decide) (by decide)

/-- C10: `RecordFailure` sets `lastFailureTime` to the current time in every
state; a failure recorded while HalfOpen transitions back to Open with the
success and half-open attempt counters reset to zero, and a fresh full
`openTimeout` must elapse from that failure before the next `Allow`
transitions to HalfOpen (checks at most `openTimeout` after it are
rejected, strictly later ones transition to HalfOpen). -/
theorem recordFailure_halfOpen_reopens (cb : CircuitBreaker) (now : Int) :
    ((cb.RecordFailure now).lastFailureTime = now) ∧
    (cb.state = CircuitState.HalfOpen →
      (cb.RecordFailure now).state = CircuitState.Open ∧
      (cb.RecordFailure now).successes = 0 ∧
      (cb.RecordFailure now).halfOpenAttempts = 0 ∧
      (∀ now2 : Int, now2 - now ≤ cb.timeout →
        ((cb.RecordFailure now).Allow now2).1 = some "circuit breaker is open" ∧
        ((cb.RecordFailure now).Allow now2).2.state = CircuitState.Open) ∧
      (∀ now2 : Int, now2 - now > cb.timeout →
        ((cb.RecordFailure now).Allow now2).1 = none ∧
        ((cb.RecordFailure now).Allow now2).2.state = CircuitState.HalfOpen ∧
        ((cb.RecordFailure now).Allow now2).2.halfOpenAttempts = 0)) := by
  constructor
  · unfold CircuitBreaker.RecordFailure
    cases h : cb.state <;> simp [h]
    split <;> rfl
  · intro h
    have hrf : cb.RecordFailure now =
        { cb with lastFailureTime := now, state := CircuitState.Open,
                  successes := 0, halfOpenAttempts := 0 } := by
      simp [CircuitBreaker.RecordFailure, h]
    rw [hrf]
    refine ⟨rfl, rfl, rfl, ?_, ?_⟩
    · intro now2 hle
      simp [CircuitBreaker.Allow, not_lt.mpr hle]
    · intro now2 hgt
      simp [CircuitBreaker.Allow, hgt]

/-- C10 witness: a HalfOpen breaker with timeout 100 failing at time 10;
the check at time 110 is rejected, the one at time 111 moves to HalfOpen. -/
theorem recordFailure_halfOpen_reopens_witness :
    ((halfOpenSample.RecordFailure 10).lastFailureTime = 10) ∧
    (halfOpenSample.RecordFailure 10).state = CircuitState.Open ∧
    (halfOpenSample.RecordFailure 10).successes = 0 ∧
    (halfOpenSample.RecordFailure 10).halfOpenAttempts = 0 ∧
    ((halfOpenSample.RecordFailure 10).Allow 110).1 = some "circuit breaker is open" ∧
    ((halfOpenSample.RecordFailure 10).Allow 111).1 = none ∧
    ((halfOpenSample.RecordFailure 10).Allow 111).2.state = CircuitState.HalfOpen := by
  obtain ⟨w1, w2⟩ := recordFailure_halfOpen_reopens halfOpenSample 10
  obtain ⟨a1, a2, a3, a4, a5⟩ := w2 (by decide)
  exact ⟨w1, a1, a2, a3, (a4 110 (by decide)).1, (a5 111 (by decide)).1,
         (a5 111 (by decide)).2.1⟩

/-- C3: whenever the wrapped handler's first invocation returns an error that
is not classified retryable (any generic, untyped error included), `Retry`
invokes the handler exactly once and returns that error unchanged with no
backoff sleep — for every `maxRetries` and backoff strategy. -/
theorem retry_nonretryable_single
    (maxRetries : Nat) (backoff : Nat → Int) (ctxDone : Bool)
    (next : Nat → Except GoError ChatResponse) (err : GoError)
    (hfirst : next 0 = Except.error err)
    (hnr : isRetryable (some err) = false) :
    Retry maxRetries backoff next ctxDone =
      { result := Except.error err, invocations := 1, sleeps := [] } := by
  unfold Retry retryLoop
  rw [hfirst]
  simp [hnr]

/-- C3 witness: `Retry(3, backoff)` around a handler failing with a plain
`errors.New` error returns it after a single invocation and no sleep. -/
theorem retry_nonretryable_single_witness :
    Retry 3 (fun _ => 1000000000) genericErrNext false =
      { result := Except.error (GoError.generic "non-retryable error"),
        invocations := 1, sleeps := [] } :=
  retry_nonretryable_single 3 (fun _ => 1000000000) false genericErrNext
    (GoError.generic "non-retryable error") rfl (by decide)

/-- C4: with `maxRetries = 3`, a non-cancelled context and a handler failing
with retryable errors on invocations 0 and 1 and succeeding on invocation 2,
`Retry` invokes the handler exactly 3 times, returns the successful response,
and sleeps the first two backoff delays. -/
theorem retry_two_failures_then_success
    (backoff : Nat → Int) (next : Nat → Except GoError ChatResponse)
    (e1 e2 : GoError) (resp : ChatResponse)
    (h0 : next 0 = Except.error e1) (h1 : next 1 = Except.error e2)
    (h2 : next 2 = Except.ok resp)
    (hr1 : isRetryable (some e1) = true) (hr2 : isRetryable (some e2) = true) :
    Retry 3 backoff next false =
      { result := Except.ok resp, invocations := 3,
        sleeps := [backoff 0, backoff 1] } := by
  unfold Retry
  unfold retryLoop
  rw [h0]
  simp only [hr1, Bool.true_eq_false, if_false, if_neg]
  unfold retryLoop
  rw [h1]
  simp only [hr2, Bool.true_eq_false, if_false, if_neg]
  unfold retryLoop
  rw [h2]
  simp

/-- C4 witness: the default exponential backoff and a fail-fail-succeed
handler give exactly 3 invocations ending in the success. -/
theorem retry_two_failures_then_success_witness :
    Retry 3 (ExponentialBackoffNext 1000000000 30000000000) retrySeqNext false =
      { result := Except.ok sampleResp, invocations := 3,
        sleeps := [ExponentialBackoffNext 1000000000 30000000000 0,
                   ExponentialBackoffNext 1000000000 30000000000 1] } :=
  retry_two_failures_then_success (ExponentialBackoffNext 1000000000 30000000000)
    retrySeqNext (NewRateLimitError "rate limited" 0) (NewRateLimitError "rate limited" 0)
    sampleResp rfl rfl rfl (by decide) (by decide)

/-- Unwrapping lemma: `i64wrap` is the identity on the `int64` range. -/
theorem i64wrap_eq_self (x : Int) (h1 : -(2 ^ 63) ≤ x) (h2 : x < 2 ^ 63) :
    i64wrap x = x := by
  unfold i64wrap
  have h3 : (0 : Int) ≤ x + 2 ^ 63 := by linarith
  have h4 : x + 2 ^ 63 < 2 ^ 64 := by
    have he : (2 : Int) ^ 64 = 2 ^ 63 + 2 ^ 63 := by norm_num
    linarith
  rw [Int.emod_eq_of_lt h3 h4]
  ring

/-- C5: for every request whose (non-negative) duration parameters keep the
sum in the `int64` range, the adaptive timeout is
`base + messages·perMessage + tools·perTool` clamped to the configured
maximum. -/
theorem adaptiveTimeout_formula (base pm pt mx : Int) (req : ChatRequest)
    (hb : 0 ≤ base) (hpm : 0 ≤ pm) (hpt : 0 ≤ pt)
    (hsum : base + (req.Messages.length : Int) * pm + (req.Tools.length : Int) * pt < 2 ^ 63) :
    AdaptiveTimeout.CalculateTimeout
      { baseTimeout := base, perMessage := pm, perTool := pt, maxTimeout := mx } req =
    (if base + (req.Messages.length : Int) * pm + (req.Tools.length : Int) * pt > mx
     then mx
     else base + (req.Messages.length : Int) * pm + (req.Tools.length : Int) * pt) := by
  have hm : (0 : Int) ≤ (req.Messages.length : Int) := Int.natCast_nonneg _
  have ht : (0 : Int) ≤ (req.Tools.length : Int) := Int.natCast_nonneg _
  have hmp : (0 : Int) ≤ (req.Messages.length : Int) * pm := mul_nonneg hm hpm
  have htp : (0 : Int) ≤ (req.Tools.length : Int) * pt := mul_nonneg ht hpt
  have hbig : (0 : Int) ≤ 2 ^ 63 := by norm_num
  have w1 : i64wrap ((req.Messages.length : Int) * pm) = (req.Messages.length : Int) * pm :=
    i64wrap_eq_self _ (by linarith) (by linarith)
  have w3 : i64wrap ((req.Tools.length : Int) * pt) = (req.Tools.length : Int) * pt :=
    i64wrap_eq_self _ (by linarith) (by linarith)
  have w2 : i64wrap (base + (req.Messages.length : Int) * pm) =
      base + (req.Messages.length : Int) * pm :=
    i64wrap_eq_self _ (by linarith) (by linarith)
  have w4 : i64wrap (base + (req.Messages.length : Int) * pm + (req.Tools.length : Int) * pt) =
      base + (req.Messages.length : Int) * pm + (req.Tools.length : Int) * pt :=
    i64wrap_eq_self _ (by linarith) (by linarith)
  simp only [AdaptiveTimeout.CalculateTimeout, w1, w2, w3, w4]

/-- C5 witness: base 10s, 1s per message, 3s per tool, and a request with
1 message and 2 tools yields exactly 17s (17·10^9 ns). -/
theorem adaptiveTimeout_formula_witness :
    AdaptiveTimeout.CalculateTimeout
      { baseTimeout := 10000000000, perMessage := 1000000000,
        perTool := 3000000000, maxTimeout := 300000000000 } sampleReq = 17000000000 := by
  have h := adaptiveTimeout_formula 10000000000 1000000000 3000000000 300000000000
    sampleReq (by decide) (by decide) (by decide) (by decide)
  rw [h]
  decide

/-- C6 counterexample: a timestamp exactly at `now - window` refutes the
claim's discard rule.  With N=1, window=100 and one admission recorded at
time 0, the code's `Allow` at time 100 admits (it discards the entry at the
cutoff, keeping only `t > now - window`), whereas the claim's rule (discard
only entries strictly older than `now - window`, then admit iff retained
count < N) retains the entry and would reject. -/
theorem slidingWindow_boundary_counterexample :
    ((((NewSlidingWindowLimiter 1 100).Allow 0).2.Allow 100).1 = true) ∧
    claimAllowSpec ((NewSlidingWindowLimiter 1 100).Allow 0).2 100 = false := by
  decide

/-- C6 amended: every `Allow()` first discards the recorded timestamps that
are not strictly newer than `now - window` (i.e. it also discards one exactly
at the cutoff), then admits iff the retained count is strictly below N,
recording `now` on admission; with N=2 and window=100ms, two immediate calls
succeed, a third immediately fails, and one 120ms later succeeds. -/
theorem slidingWindow_allow_amended (s : SlidingWindowLimiter) (now : Int) :
    ((s.Allow now).1 =
      decide ((s.requests.filter (fun t => t > now - s.windowPeriod)).length < s.maxRequests)) ∧
    ((s.Allow now).2.requests =
      (if (s.requests.filter (fun t => t > now - s.windowPeriod)).length < s.maxRequests
       then s.requests.filter (fun t => t > now - s.windowPeriod) ++ [now]
       else s.requests.filter (fun t => t > now - s.windowPeriod))) ∧
    (s.Allow now).2.maxRequests = s.maxRequests ∧
    (s.Allow now).2.windowPeriod = s.windowPeriod ∧
    (let l0 := NewSlidingWindowLimiter 2 100000000
     let r1 := l0.Allow 0
     let r2 := r1.2.Allow 0
     let r3 := r2.2.Allow 0
     let r4 := r3.2.Allow 120000000
     r1.1 = true ∧ r2.1 = true ∧ r3.1 = false ∧ r4.1 = true) := by
  refine ⟨?_, ?_, ?_, ?_, by decide⟩ <;>
    · unfold SlidingWindowLimiter.Allow
      rcases lt_or_ge ((s.requests.filter (fun t => t > now - s.windowPeriod)).length)
        s.maxRequests with h | h
      · simp [not_le.mpr h, h]
      · simp [h, not_lt.mpr h]

/-- If a key resolves to a value at one time and is still unexpired at
another, it resolves to the same value (the stored entry does not change
between lazy-expiry reads). -/
theorem memoryCache_Get_value_stable (c : MemoryCache) (key : String) (n1 n2 : Int)
    (v : ChatResponse) (h1 : c.Get key n1 = some v)
    (h2 : (c.Get key n2).isSome = true) : c.Get key n2 = some v := by
  unfold MemoryCache.Get at h1 h2 ⊢
  cases hl : c.items.lookup key with
  | none => simp [hl] at h1
  | some item =>
      simp only [hl] at h1 h2 ⊢
      by_cases he : n2 > item.expiration
      · simp [he] at h2
      · by_cases he1 : n1 > item.expiration
        · simp [he1] at h1
        · simp [he1] at h1
          simp [he, h1]

/-- Reading back a freshly `Set` key yields the stored value until its
expiration passes. -/
theorem memoryCache_Set_Get (c : MemoryCache) (key : String) (v : ChatResponse)
    (ttl now n2 : Int) :
    (c.Set key v ttl now).Get key n2 = if n2 > now + ttl then none else some v := by
  unfold MemoryCache.Get MemoryCache.Set
  simp [List.lookup]

/-- C7: if a call through the cache middleware returns success and the
request's entry is unexpired at the time of a second call with a
structurally identical request, the second call does not invoke the wrapped
handler and returns exactly the first call's response (and cache); and
whenever the wrapped handler returns an error, the cache is left unchanged
(only successes are stored). -/
theorem cache_hit_skips_handler
    (next : ChatRequest → Except GoError ChatResponse) (cache cache1 : MemoryCache)
    (ttl now1 now2 : Int) (req : ChatRequest) (r1 : ChatResponse) (b1 : Bool)
    (hfirst : cacheMiddlewareCall next cache ttl now1 req = (Except.ok r1, cache1, b1))
    (hfresh : (cache1.Get (generateCacheKey req) now2).isSome = true) :
    cacheMiddlewareCall next cache1 ttl now2 req = (Except.ok r1, cache1, false) ∧
    (∀ (c : MemoryCache) (now3 : Int) (e : GoError),
      next req = Except.error e →
      (cacheMiddlewareCall next c ttl now3 req).2.1 = c) := by
  constructor
  · simp only [cacheMiddlewareCall] at hfirst ⊢
    cases hget : cache.Get (generateCacheKey req) now1 with
    | some v =>
        simp only [hget, Prod.mk.injEq] at hfirst
        obtain ⟨hv, hc, hb⟩ := hfirst
        subst hc
        have hv' : v = r1 := by injection hv
        subst hv'
        have hstable := memoryCache_Get_value_stable cache (generateCacheKey req)
          now1 now2 v hget hfresh
        simp [hstable]
    | none =>
        simp only [hget] at hfirst
        cases hn : next req with
        | error e => simp [hn] at hfirst
        | ok resp =>
            simp only [hn, Prod.mk.injEq] at hfirst
            obtain ⟨hv, hc, hb⟩ := hfirst
            have hv' : resp = r1 := by injection hv
            subst hv'
            subst hc
            have hgot := memoryCache_Set_Get cache (generateCacheKey req) resp ttl now1 now2
            by_cases he : now2 > now1 + ttl
            · rw [hgot, if_pos he] at hfresh
              simp at hfresh
            · rw [if_neg he] at hgot
              simp [hgot]
  · intro c now3 e hn
    simp only [cacheMiddlewareCall]
    cases hget : c.Get (generateCacheKey req) now3 with
    | some v => rfl
    | none => simp [hget, hn]

/-- C7 witness: a seeded cache serves the response at time 500 without
invoking the failing handler, and a miss on an erroring handler stores
nothing. -/
theorem cache_hit_skips_handler_witness :
    cacheMiddlewareCall errNextReq cacheSeeded 1000 500 sampleReq =
      (Except.ok sampleResp, cacheSeeded, false) ∧
    (cacheMiddlewareCall errNextReq NewMemoryCache 1000 700 sampleReq).2.1 =
      NewMemoryCache := by
  have hg : cacheSeeded.Get (generateCacheKey sampleReq) 10 = some sampleResp := by decide
  have hg2 : (cacheSeeded.Get (generateCacheKey sampleReq) 500).isSome = true := by decide
  have hfirst : cacheMiddlewareCall errNextReq cacheSeeded 1000 10 sampleReq =
      (Except.ok sampleResp, cacheSeeded, false) := by
    simp [cacheMiddlewareCall, hg]
  obtain ⟨h1, h2⟩ := cache_hit_skips_handler errNextReq cacheSeeded cacheSeeded 1000 10 500
    sampleReq sampleResp false hfirst hg2
  exact ⟨h1, h2 NewMemoryCache 700 (GoError.generic "handler error") rfl⟩

/-- C8: for every base handler and ordered middleware list, `Apply` (and the
middleware built by `Chain`, applied to the base) equals the right fold
`m1 (m2 (… mn base …))`: the first-registered middleware is outermost, so it
runs first on the way in and last on the way out, witnessed by peeling the
head off the composition. -/
theorem apply_chain_composition (base : Handler) (m : Middleware) (ms : List Middleware) :
    Apply base ms = ms.foldr (fun mw h => mw h) base ∧
    Chain ms base = Apply base ms ∧
    Apply base (m :: ms) = m (Apply base ms) := by
  have key : ∀ (l : List Middleware) (b : Handler),
      l.reverse.foldl (fun h mw => mw h) b = l.foldr (fun mw h => mw h) b :=
    fun l b => List.foldl_reverse l (fun h mw => mw h) b
  refine ⟨key ms base, rfl, ?_⟩
  have h1 : Apply base (m :: ms) = m (ms.foldr (fun mw h => mw h) base) :=
    key (m :: ms) base
  rw [h1]
  exact congrArg m (key ms base).symm

/-- C9: in non-blocking mode, when the limiter's `Allow` refuses, the
rate-limit middleware fails immediately with a rate-limit error whose
suggested retry-after is exactly 1 second (10^9 ns), and the wrapped handler
is not invoked — for any limiter implementation. -/
theorem rateLimit_nonblocking_rejection {σ : Type} (allowFn : σ → Bool × σ)
    (waitFn : σ → Option String × σ)
    (next : ChatRequest → Except GoError ChatResponse) (st st' : σ) (req : ChatRequest)
    (h : allowFn st = (false, st')) :
    rateLimitCall allowFn waitFn false next st req =
      (Except.error (NewRateLimitError "rate limit exceeded" 1000000000), st', false) ∧
    (NewRateLimitError "rate limit exceeded" 1000000000).RetryAfterOf = 1000000000 ∧
    (NewRateLimitError "rate limit exceeded" 1000000000).Code = "rate_limit" := by
  refine ⟨?_, rfl, rfl⟩
  simp [rateLimitCall, h]

/-- C9 witness: a sliding-window limiter with capacity 0 refuses, and the
middleware returns the 1s-retry-after rate-limit error without calling the
handler. -/
theorem rateLimit_nonblocking_rejection_witness :
    rateLimitCall (fun s : SlidingWindowLimiter => s.Allow 5) (fun s => (none, s)) false
      (fun _ => Except.ok sampleResp) (NewSlidingWindowLimiter 0 100) sampleReq =
      (Except.error (NewRateLimitError "rate limit exceeded" 1000000000),
       NewSlidingWindowLimiter 0 100, false) :=
  (rateLimit_nonblocking_rejection (fun s : SlidingWindowLimiter => s.Allow 5)
    (fun s => (none, s)) (fun _ => Except.ok sampleResp) (NewSlidingWindowLimiter 0 100)
    (NewSlidingWindowLimiter 0 100) sampleReq (by decide)).1

/-- C2 (code bug): after `Close()`, the `done` channel and the buffered
channels are all closed, so in `SendEvent`/`SendError` *both* the
`<-s.done` receive and the send on the closed channel are ready `select`
cases; Go picks among ready cases by uniform pseudo-random selection, and
choosing the send case makes the program panic (send on a closed channel).
The claim's intended behavior (always a silent return) is only one of the
reachable outcomes; the panicking one refutes "neither panics nor blocks".
`Close` itself is idempotent (`sync.Once`), as the final conjunct records. -/
theorem sendEvent_after_close_can_panic :
    ((NewChatStream false).Close.sendEventReady SendCase.send = true) ∧
    ((NewChatStream false).Close.sendEventReady SendCase.recvDone = true) ∧
    (((NewChatStream false).Close.SendEvent sampleEvent SendCase.send).1 =
      SendOutcome.panicked) ∧
    (((NewChatStream false).Close.SendEvent sampleEvent SendCase.recvDone).1 =
      SendOutcome.returned ∧
     ((NewChatStream false).Close.SendEvent sampleEvent SendCase.recvDone).2 =
      (NewChatStream false).Close) ∧
    ((NewChatStream false).Close.sendErrorReady SendCase.send = true) ∧
    (((NewChatStream false).Close.SendError (GoError.generic "boom") SendCase.send).1 =
      SendOutcome.panicked) ∧
    ((NewChatStream false).Close.Close = (NewChatStream false).Close) :=
  ⟨rfl, rfl, rfl, ⟨rfl, rfl⟩, rfl, rfl, rfl⟩

end Llmx
